import Mathlib

/-!
# Verification of the smartcar-prometheus webhook bridge (`scp.py`)

A shallow embedding of the single module `scp.py`: the HMAC-SHA256 request
authenticator, the POST event state machine (`do_POST` together with `fail`,
`check_bail_out_early`, `check_bail_out_read`), the in-memory per-vehicle
store with its shallow top-level merge, and the metrics renderer
(`do_GET` / `write_signal`).

Modelling conventions:

* JSON values are the inductive `JValue`; Python `dict`s (which preserve
  insertion order and have unique keys) are association lists
  `List (String × _)` with first-match lookup (`aget`) and
  replace-first-or-append update (`aset`, exactly Python's `d[k] = v` on a
  dict whose keys are unique).
* JSON numbers are modelled as integers (`Int`); every numeric field the
  program touches (`meta.oemUpdatedAt`, signal values in the claims) is an
  integer, and Python's floor division `//` becomes `Int.fdiv`.
* `json.loads` is the Python standard library, not code of this module, so
  the parser is passed to `do_POST` as an oracle
  `jsonLoads : List Nat → Option JValue` (`none` = `json.JSONDecodeError`).
* The HTTP wire is a list of `OutEvent`s in the order
  `BaseHTTPRequestHandler` flushes them: `send_response` + `end_headers`
  emit the status/header block, `wfile.write` emits a body chunk.  The
  status the client sees is the first status line on the wire.
* An unhandled Python exception escaping the handler (`KeyError`,
  `TypeError`, ...) is modelled as the result `none`; `do_POST` and
  `do_GET` return `Option` results.
* Header lookup `self.headers[name]` on `email.message.Message` yields
  `None` when the header is missing, hence `Option String` here.
* Vehicle ids are modelled as strings, as declared by `SmartCarVehicle.id`
  in the source's data model.
-/

/-- A JSON value as produced by `json.loads` (numbers restricted to
integers, which covers every field this program computes with). -/
inductive JValue where
  | jnull
  | jbool (b : Bool)
  | jnum (n : Int)
  | jstr (s : String)
  | jarr (elems : List JValue)
  | jobj (fields : List (String × JValue))

/-- A Python `dict` with string keys, as an insertion-ordered association
list. -/
abbrev Obj := List (String × JValue)

/-- First-match association-list lookup: Python `d[k]` / `d.get(k)`. -/
def aget {α : Type} : List (String × α) → String → Option α
  | [], _ => none
  | (k', v) :: rest, k => if k' == k then some v else aget rest k

/-- Python `k in d`. -/
def ahas {α : Type} (d : List (String × α)) (k : String) : Bool :=
  (aget d k).isSome

/-- Python `d[k] = v` on an insertion-ordered dict: replace the first
binding of `k` in place, or append a new binding at the end. -/
def aset {α : Type} : List (String × α) → String → α → List (String × α)
  | [], k, v => [(k, v)]
  | (k', v') :: rest, k, v =>
      if k' == k then (k, v) :: rest else (k', v') :: aset rest k v

/-- Left-biased choice on `Option`, used to state merge results. -/
def oFirst {α : Type} : Option α → Option α → Option α
  | some v, _ => some v
  | none, b => b

/-- Python subscripting `v[k]` with a string key: defined on dicts, an
exception (`none`) on anything else. -/
def jGet (v : JValue) (k : String) : Option JValue :=
  match v with
  | .jobj fields => aget fields k
  | _ => none

/-- Python `v == s` for a string literal `s`: only a `str` can equal a
`str`; values of other types compare unequal without error. -/
def pyEqStr (v : JValue) (s : String) : Bool :=
  match v with
  | .jstr t => t == s
  | _ => false

/-- Python `f"{v}"` on the values rendering can meet (strings print bare,
integers in decimal).  Containers are unreachable in the verified renders
and are given a dummy image. -/
def pyStr (v : JValue) : String :=
  match v with
  | .jstr s => s
  | .jnum n => toString n
  | .jbool true => "True"
  | .jbool false => "False"
  | .jnull => "None"
  | .jarr _ => ""
  | .jobj _ => ""

/-- Lines 201-204: `if val is False: val = 0` / `if val is True: val = 1`;
all other values pass through unchanged. -/
def coerce (v : JValue) : JValue :=
  match v with
  | .jbool false => .jnum 0
  | .jbool true => .jnum 1
  | _ => v

/-! ## Bytes and UTF-8 (Python `str.encode()`) -/

/-- UTF-8 encoding of a single code point. -/
def utf8Char (n : Nat) : List Nat :=
  if n < 0x80 then [n]
  else if n < 0x800 then [0xc0 + n / 0x40, 0x80 + n % 0x40]
  else if n < 0x10000 then
    [0xe0 + n / 0x1000, 0x80 + n / 0x40 % 0x40, 0x80 + n % 0x40]
  else
    [0xf0 + n / 0x40000, 0x80 + n / 0x1000 % 0x40,
     0x80 + n / 0x40 % 0x40, 0x80 + n % 0x40]

/-- Python `s.encode()`: the UTF-8 bytes of a string. -/
def utf8Bytes (s : String) : List Nat :=
  (s.data.map (fun c => utf8Char c.toNat)).flatten

/-- Python `int(s)` as used on the `Content-Length` header value: the
value of a nonempty all-digit string, an exception (`none`) otherwise. -/
def pyInt? (s : String) : Option Nat :=
  if s.data.isEmpty then none
  else s.data.foldl (fun acc c =>
    acc.bind (fun n =>
      if 48 ≤ c.toNat ∧ c.toNat ≤ 57 then some (n * 10 + (c.toNat - 48))
      else none)) (some 0)

/-! ## SHA-256 and HMAC (Python `hashlib.sha256`, `hmac.new(...)`)

A direct executable implementation over byte lists, all word arithmetic
taken modulo `2^32`. -/

/-- Truncate to a 32-bit word. -/
def w32 (n : Nat) : Nat := n % 4294967296

/-- Rotate a 32-bit word right by `n` bits. -/
def rotr (x n : Nat) : Nat :=
  w32 ((x >>> n) ||| (x <<< (32 - n)))

/-- The SHA-256 round constants. -/
def shaK : List Nat :=
  [1116352408, 1899447441, 3049323471, 3921009573,
   961987163, 1508970993, 2453635748, 2870763221,
   3624381080, 310598401, 607225278, 1426881987,
   1925078388, 2162078206, 2614888103, 3248222580,
   3835390401, 4022224774, 264347078, 604807628,
   770255983, 1249150122, 1555081692, 1996064986,
   2554220882, 2821834349, 2952996808, 3210313671,
   3336571891, 3584528711, 113926993, 338241895,
   666307205, 773529912, 1294757372, 1396182291,
   1695183700, 1986661051, 2177026350, 2456956037,
   2730485921, 2820302411, 3259730800, 3345764771,
   3516065817, 3600352804, 4094571909, 275423344,
   430227734, 506948616, 659060556, 883997877,
   958139571, 1322822218, 1537002063, 1747873779,
   1955562222, 2024104815, 2227730452, 2361852424,
   2428436474, 2756734187, 3204031479, 3329325298]

/-- The SHA-256 initial hash state. -/
def shaH0 : List Nat :=
  [1779033703, 3144134277, 1013904242, 2773480762,
   1359893119, 2600822924, 528734635, 1541459225]

/-- Big-endian bytes of `n`, `k` bytes wide. -/
def beBytes : Nat → Nat → List Nat
  | 0, _ => []
  | k + 1, n => beBytes k (n / 256) ++ [n % 256]

/-- Group bytes into big-endian 32-bit words. -/
def toWords : List Nat → List Nat
  | b0 :: b1 :: b2 :: b3 :: rest =>
      (((b0 * 256 + b1) * 256 + b2) * 256 + b3) :: toWords rest
  | _ => []

/-- One extension step of the SHA-256 message schedule: append the word
computed from the 2nd, 7th, 15th and 16th most recent ones. -/
def schedNext (ws : List Nat) : Nat :=
  let g := fun (i : Nat) => ws.getD (ws.length - i) 0
  let w15 := g 15
  let w2 := g 2
  let s0 := rotr w15 7 ^^^ rotr w15 18 ^^^ (w15 >>> 3)
  let s1 := rotr w2 17 ^^^ rotr w2 19 ^^^ (w2 >>> 10)
  w32 (g 16 + s0 + g 7 + s1)

/-- Extend the message schedule by `n` words. -/
def extendWs (ws : List Nat) : Nat → List Nat
  | 0 => ws
  | n + 1 => extendWs (ws ++ [schedNext ws]) n

/-- One SHA-256 compression round on the 8-word state. -/
def roundStep (st : List Nat) (kw : Nat × Nat) : List Nat :=
  match st with
  | [a, b, c, d, e, f, g, h] =>
    let s1 := rotr e 6 ^^^ rotr e 11 ^^^ rotr e 25
    let ch := ((4294967295 - e) &&& g) ^^^ (e &&& f)
    let t1 := w32 (h + s1 + ch + kw.1 + kw.2)
    let s0 := rotr a 2 ^^^ rotr a 13 ^^^ rotr a 22
    let maj := (b &&& c) ^^^ ((a &&& b) ^^^ (a &&& c))
    let t2 := w32 (s0 + maj)
    [w32 (t1 + t2), a, b, c, w32 (d + t1), e, f, g]
  | _ => st

/-- SHA-256 compression of one 64-byte block into the hash state. -/
def compress (hs : List Nat) (block : List Nat) : List Nat :=
  let ws := extendWs (toWords block) 48
  let st := (shaK.zip ws).foldl roundStep hs
  (hs.zip st).map (fun p => w32 (p.1 + p.2))

/-- SHA-256 padding: `0x80`, zeros, and the 64-bit big-endian bit length. -/
def padMsg (msg : List Nat) : List Nat :=
  let z := (64 - (msg.length + 9) % 64) % 64
  msg ++ [0x80] ++ List.replicate z 0 ++ beBytes 8 (8 * msg.length)

/-- Split a list (whose length is a multiple of 64) into 64-byte blocks. -/
def chunks64 (l : List Nat) : List (List Nat) :=
  (List.range (l.length / 64)).map (fun i => (l.drop (64 * i)).take 64)

/-- The SHA-256 digest (32 bytes) of a byte string. -/
def sha256 (msg : List Nat) : List Nat :=
  let hs := (chunks64 (padMsg msg)).foldl compress shaH0
  (hs.map (beBytes 4)).flatten

/-- A lowercase hex digit. -/
def hexChar (n : Nat) : Char :=
  if n < 10 then Char.ofNat (48 + n) else Char.ofNat (87 + n)

/-- Lowercase hex encoding of a byte string (Python `.hexdigest()`). -/
def hexOfBytes (bs : List Nat) : String :=
  ⟨(bs.map (fun b => [hexChar (b / 16), hexChar (b % 16)])).flatten⟩

/-- HMAC-SHA256 over byte strings (Python
`hmac.new(key, msg, hashlib.sha256).digest()`). -/
def hmacSha256 (key msg : List Nat) : List Nat :=
  let k0 := if 64 < key.length then sha256 key else key
  let kp := k0 ++ List.replicate (64 - k0.length) 0
  sha256 ((kp.map (fun b => b ^^^ 0x5c)) ++
    sha256 ((kp.map (fun b => b ^^^ 0x36)) ++ msg))

/-- `RequestAuthenticator.sign`: line 169 / line 283,
`hmac.new(amt, data, hashlib.sha256).hexdigest()` — the lowercase hex
HMAC-SHA256 of `message` under `secret`. -/
def sign (secret message : List Nat) : String :=
  hexOfBytes (hmacSha256 secret message)

/-- `RequestAuthenticator.verify`: line 171 recomputes the digest and
compares (`scsign != bodyhash` negated). -/
def verify (secret message : List Nat) (providedHex : String) : Bool :=
  providedHex == sign secret message

/-! ## The HTTP handler (`get_handler` / class `MyServer`) -/

/-- One event on the HTTP wire, in flush order: `send_response` emits a
status line, `send_header` a header line, `end_headers` the blank line
(and flushes), `wfile.write` a body chunk. -/
inductive OutEvent where
  | status (code : Nat)
  | header (k v : String)
  | endHeaders
  | body (s : String)
  deriving DecidableEq

/-- Request headers (`self.headers`), an ordered multimap with
first-match lookup; a missing name reads as `none` (Python `None`). -/
abbrev Headers := List (String × String)

/-- The store `datastore`: vehicle id → current `DataSet` (itself an open
top-level dict). -/
abbrev Store := List (String × Obj)

/-- The outcome of a handled request: everything written to the wire, and
the store afterwards. -/
structure PostResult where
  events : List OutEvent
  store : Store

/-- Lines 134-140, `fail`: a 503 status/header block followed by the given
error body. -/
def fail (response : String) : List OutEvent :=
  [.status 503, .header "Content-type" "application/json", .endHeaders,
   .body response]

/-- Lines 146-150, the bail-out condition of `check_bail_out_early`:
`Content-Length` missing, or `Content-Type` missing or not exactly
`application/json`.  (The `SC-Signature` header is not examined here.) -/
def check_bail_out_early (hdrs : Headers) : Bool :=
  !ahas hdrs "Content-Length" || !ahas hdrs "Content-Type" ||
    !(aget hdrs "Content-Type" == some "application/json")

/-- The 200 status/header block sent at lines 274-276, before the event
dispatch. -/
def okHeaders : List OutEvent :=
  [.status 200, .header "Content-type" "application/json", .endHeaders]

/-- Line 310-311: `for key in parsed["data"]: stored[key] = parsed["data"][key]`
— the shallow top-level merge of the incoming `data` dict into the stored
`DataSet`. -/
def mergeInto (stored : Obj) (data : Obj) : Obj :=
  data.foldl (fun acc kv => aset acc kv.1 kv.2) stored

/-- Lines 305-307: the `DataSet(signals=..., vehicle=...)` constructor, a
dict with those two keys in keyword order. -/
def mkDataSet (sigs veh : JValue) : Obj :=
  [("signals", sigs), ("vehicle", veh)]

/-- Lines 301-311: the `VEHICLE_STATE` store mutation.  Reads
`data["vehicle"]["id"]`; on a new id first inserts
`DataSet(signals=data["signals"], vehicle=data["vehicle"])`, then merges
every top-level key of `data` into the stored entry (which aliases the
store slot).  `none` models an escaping `KeyError`/`TypeError` (missing
field or wrong shape; ids are modelled as the strings the data model
declares). -/
def applyVehicleState (store : Store) (data : Obj) : Option Store :=
  match aget data "vehicle" with
  | none => none
  | some veh =>
    match jGet veh "id" with
    | some (.jstr vid) =>
      match aget store vid with
      | some stored => some (aset store vid (mergeInto stored data))
      | none =>
        match aget data "signals" with
        | none => none
        | some sigs =>
          some (aset (aset store vid (mkDataSet sigs veh)) vid
            (mergeInto (mkDataSet sigs veh) data))
    | _ => none

/-- Lines 256-314, `do_POST`.  `amt` is the shared secret (config), and
`jsonLoads` the `json.loads` oracle.  The result is `none` when an
exception escapes the handler, otherwise the wire events and the store
after the request. -/
def do_POST (amt : List Nat) (jsonLoads : List Nat → Option JValue)
    (hdrs : Headers) (rbody : List Nat) (store : Store) :
    Option PostResult :=
  -- line 259: check_bail_out_early
  if check_bail_out_early hdrs then
    some ⟨fail "\x7berror=\"weird post\"\x7d\n", store⟩
  else
    -- line 262: content_length = int(self.headers["Content-Length"])
    match (aget hdrs "Content-Length").bind pyInt? with
    | none => none
    | some contentLength =>
      -- line 264: post_data = self.rfile.read(content_length)
      let postData := rbody.take contentLength
      -- lines 266 and 158-184: check_bail_out_read
      match jsonLoads postData with
      | none => some ⟨fail "\x7berror=\"weird json\"\x7d\n", store⟩
      | some _ =>
        if !(aget hdrs "SC-Signature" == some (sign amt postData)) then
          some ⟨fail "\x7berror=\"mismatched signage\"\x7d\n", store⟩
        else
          -- line 270: parsed = json.loads(post_data)
          match jsonLoads postData with
          | none => none
          | some parsed =>
            -- lines 274-276: the 200 block is sent before dispatch
            match jGet parsed "eventType" with
            | none => none
            | some et =>
              if pyEqStr et "VERIFY" then
                match (jGet parsed "data").bind (fun d => jGet d "challenge") with
                | some (.jstr challenge) =>
                  some ⟨okHeaders ++
                    [.body ("\x7b\"challenge\": \"" ++
                      sign amt (utf8Bytes challenge) ++ "\"\x7d")], store⟩
                | _ => none
              else if pyEqStr et "VEHICLE_ERROR" then
                some ⟨okHeaders ++ [.body "\x7b\"acknowledged\":true\x7d"], store⟩
              else if !pyEqStr et "VEHICLE_STATE" then
                -- line 296: note the body literal lacks its closing brace
                some ⟨okHeaders ++
                  fail "\x7berror=\"ignoring unknown eventType\"\n", store⟩
              else
                match jGet parsed "data" with
                | some (.jobj data) =>
                  match applyVehicleState store data with
                  | none => none
                  | some store' =>
                    some ⟨okHeaders ++ [.body "\x7b\"success\":true\x7d"], store'⟩
                | _ => none

/-! ## The metrics renderer (`do_GET` / `write_signal`) -/

/-- Lines 188-195: the fixed code → metric-name gauge table. -/
def gaugeTable : List (String × String) :=
  [("tractionbattery-stateofcharge", "stateofcharge"),
   ("odometer-traveleddistance", "odometer"),
   ("closure-islocked", "locked"),
   ("connectivitystatus-isonline", "online"),
   ("connectivitystatus-isasleep", "asleep"),
   ("connectivitystatus-isdigitalkeypaired", "digitalkeypaired")]

/-- The body of the `for gauge in [...]` loop of `write_signal`
(lines 196-223) for one table entry: skip on a code mismatch, otherwise
emit the `# TYPE` line, an optional `# UNIT` line, and the sample line.
`none` models an exception on a malformed signal. -/
def gaugeStep (s : JValue) (inst : String) (c : JValue)
    (acc : Option (List OutEvent)) (g : String × String) :
    Option (List OutEvent) :=
  match acc with
  | none => none
  | some evts =>
    if !pyEqStr c g.1 then some evts
    else
      match (jGet s "body").bind (fun b => jGet b "value") with
      | none => none
      | some v =>
        let val := coerce v
        match (jGet s "meta").bind (fun m => jGet m "oemUpdatedAt") with
        | some (.jnum t) =>
          let ts := " " ++ toString (Int.fdiv t 1000)
          let uline :=
            match jGet s "body" with
            | some (.jobj bf) =>
              if ahas bf "unit" then
                [OutEvent.body ("# UNIT " ++ (g.2 ++ (" " ++
                  (pyStr ((aget bf "unit").getD .jnull) ++ "\n"))))]
              else []
            | _ => []
          some (evts ++
            [OutEvent.body ("# TYPE " ++ (g.2 ++ " gauge\n"))] ++ uline ++
            [OutEvent.body ((g.2 ++ "\x7bvehicleid=\"") ++
              (inst ++ ("\"\x7d " ++ (pyStr val ++ (ts ++ "\n")))))])
        | _ => none

/-- Lines 186-223, `write_signal`: run the gauge loop over the fixed
table.  (`s["code"]` is read on the first iteration; a signal without it
raises, hence `none`.) -/
def write_signal (s : JValue) (inst : String) : Option (List OutEvent) :=
  match jGet s "code" with
  | none => none
  | some c => gaugeTable.foldl (gaugeStep s inst c) (some [])

/-- Lines 236-246: the `vehicleinfo` block for one stored `DataSet` —
HELP/TYPE lines, then the label list built key by key with `", "`
separators, then the closing `"\x7d 1\n"` write. -/
def vehicleLabelEvents (vf : List (String × JValue)) : List OutEvent :=
  match vf with
  | [] => []
  | p :: rest =>
    [OutEvent.body (p.1 ++ ("=\"" ++ (pyStr p.2 ++ "\"")))] ++
    (rest.map (fun q =>
      [OutEvent.body ", ",
       OutEvent.body (q.1 ++ ("=\"" ++ (pyStr q.2 ++ "\"")))])).flatten

/-- Lines 236-246: the `vehicleinfo` block for one stored `DataSet` -
HELP/TYPE lines, then the label list, then the closing write. -/
def renderVehicleInfo (ds : Obj) : Option (List OutEvent) :=
  match aget ds "vehicle" with
  | some (.jobj vf) =>
    some ([.body "# HELP vehicleinfo Car info\n",
           .body "# TYPE vehicleinfo info\n",
           .body "vehicleinfo\x7b"] ++
      vehicleLabelEvents vf ++
      [.body "\x7d 1\n"])
  | _ => none

/-- Lines 248-253: the per-signal loop — skip signals whose
`status.value` is not `SUCCESS`, render the rest with `write_signal`. -/
def renderSigs (inst : String) : List JValue → Option (List OutEvent)
  | [] => some []
  | s :: rest =>
    match (jGet s "status").bind (fun st => jGet st "value") with
    | none => none
    | some sv =>
      if !pyEqStr sv "SUCCESS" then renderSigs inst rest
      else
        match write_signal s inst, renderSigs inst rest with
        | some a, some b => some (a ++ b)
        | _, _ => none

/-- Lines 232-254: everything `do_GET` writes for one stored vehicle. -/
def renderDS (inst : String) (ds : Obj) : Option (List OutEvent) :=
  match renderVehicleInfo ds with
  | none => none
  | some vevts =>
    match aget ds "signals" with
    | some (.jarr sigs) =>
      match renderSigs inst sigs with
      | some sevts => some (vevts ++ sevts)
      | none => none
    | _ => none

/-- The `for inst in datastore` loop of `do_GET`, in insertion
order. -/
def renderAll : Store → Option (List OutEvent)
  | [] => some []
  | (inst, ds) :: rest =>
    match renderDS inst ds, renderAll rest with
    | some a, some b => some (a ++ b)
    | _, _ => none

/-- Lines 225-254, `do_GET`: the 200 text/plain block followed by every
vehicle's rendered metrics. -/
def do_GET (store : Store) : Option (List OutEvent) :=
  (renderAll store).map (fun evts =>
    [.status 200, .header "Content-type" "text/plain; charset=utf-8",
     .endHeaders] ++ evts)

/-! ## Claim-side definitions

Functions that restate, in the spec's vocabulary, what the wire output and
the store look like; the claims are equations between these and the
handler definitions above. -/

/-- The HTTP status the client sees: the first status line flushed to the
wire. -/
def clientStatus (evts : List OutEvent) : Option Nat :=
  (evts.filterMap (fun e => match e with
    | .status c => some c
    | _ => none)).head?

/-- Byte-accurate string prefix test (on the character lists). -/
def strStarts (s p : String) : Bool :=
  p.data.isPrefixOf s.data

/-- Recognize a gauge sample line: it starts with one of the six metric
names followed by `{vehicleid="`.  TYPE/UNIT/HELP lines start with `# `,
and the `vehicleinfo` block is written in fragments none of which has this
shape (for label keys from the declared `Vehicle` schema). -/
def isGaugeSample (s : String) : Bool :=
  gaugeTable.any (fun g => strStarts s (g.2 ++ "\x7bvehicleid=\""))

/-- The gauge sample lines of a rendered document, in order. -/
def gaugeSamples (evts : List OutEvent) : List String :=
  evts.filterMap (fun e => match e with
    | .body s => if isGaugeSample s then some s else none
    | _ => none)

/-- The spec's gauge table as a lookup: metric name for a signal code. -/
def gaugeName (c : String) : Option String :=
  (gaugeTable.find? (fun g => g.1 == c)).map (fun g => g.2)

/-- The code of a signal (empty for the malformed cases). -/
def codeOf (s : JValue) : String :=
  match jGet s "code" with
  | some (.jstr c) => c
  | _ => ""

/-- Does this signal's `status.value` equal `SUCCESS`? -/
def statusSuccess (s : JValue) : Bool :=
  match (jGet s "status").bind (fun st => jGet st "value") with
  | some sv => pyEqStr sv "SUCCESS"
  | none => false

/-- Does this signal's code appear in the gauge table? -/
def sigMatches (s : JValue) : Bool :=
  match jGet s "code" with
  | some (.jstr c) => (gaugeName c).isSome
  | _ => false

/-- The raw `body.value` of a signal. -/
def valOf (s : JValue) : JValue :=
  ((jGet s "body").bind (fun b => jGet b "value")).getD .jnull

/-- The `meta.oemUpdatedAt` of a signal. -/
def tsOf (s : JValue) : Int :=
  match (jGet s "meta").bind (fun m => jGet m "oemUpdatedAt") with
  | some (.jnum t) => t
  | _ => 0

/-- The sample line the spec promises for a matched signal: metric name,
`vehicleid` label, the boolean-coerced value, and `meta.oemUpdatedAt`
floor-divided by 1000. -/
def specSample (inst : String) (s : JValue) : String :=
  ((gaugeName (codeOf s)).getD "" ++ "\x7bvehicleid=\"") ++
    (inst ++ ("\"\x7d " ++ (pyStr (coerce (valOf s)) ++
      ((" " ++ toString (Int.fdiv (tsOf s) 1000)) ++ "\n"))))

/-- The signal list of a stored `DataSet`. -/
def sigListOf (ds : Obj) : List JValue :=
  match aget ds "signals" with
  | some (.jarr l) => l
  | _ => []

/-- The spec's rendering-completeness right-hand side: for every vehicle
in snapshot order, exactly one sample per `SUCCESS` signal whose code is
in the gauge table, and nothing for any other signal. -/
def specSamples (store : Store) : List String :=
  (store.map (fun e =>
    ((sigListOf e.2).filter (fun s => statusSuccess s && sigMatches s)).map
      (specSample e.1))).flatten

/-- Well-formed signal: `status.value` is present, and when it is
`SUCCESS` the fields rendering reads are present and typed as the data
model declares (`code`; for table codes also `body.value` and an integer
`meta.oemUpdatedAt`). -/
def wfSignal (s : JValue) : Bool :=
  match (jGet s "status").bind (fun st => jGet st "value") with
  | none => false
  | some sv =>
    if pyEqStr sv "SUCCESS" then
      match jGet s "code" with
      | none => false
      | some (.jstr c) =>
        if (gaugeName c).isSome then
          ((jGet s "body").bind (fun b => jGet b "value")).isSome &&
          (match (jGet s "meta").bind (fun m => jGet m "oemUpdatedAt") with
           | some (.jnum _) => true
           | _ => false)
        else true
      | some _ => true
    else true

/-- Well-formed stored `DataSet`: a `vehicle` dict whose label keys are
the declared `Vehicle` fields, and a list of well-formed signals. -/
def wfDS (ds : Obj) : Bool :=
  (match aget ds "vehicle" with
   | some (.jobj vf) =>
     vf.all (fun p => p.1 == "id" || p.1 == "make" || p.1 == "model" ||
       p.1 == "year")
   | _ => false) &&
  (match aget ds "signals" with
   | some (.jarr sigs) => sigs.all wfSignal
   | _ => false)

/-- Well-formed store: every entry renders without an exception. -/
def wfStore (store : Store) : Bool :=
  store.all (fun e => wfDS e.2)

/-- A store entry is keyed consistously: its `vehicle.id` equals its
key. -/
def entryConsistent (k : String) (e : Obj) : Bool :=
  match aget e "vehicle" with
  | some (.jobj veh) =>
    match aget veh "id" with
    | some (.jstr i) => i == k
    | _ => false
  | _ => false

/-- The key-consistency invariant over the whole store. -/
def storeKeyConsistent (store : Store) : Prop :=
  ∀ k e, aget store k = some e → entryConsistent k e = true

/-! ## Concrete requests used by the evaluation theorems -/

/-- A parse oracle for bodies that are not valid JSON. -/
def noParse : List Nat → Option JValue := fun _ => none

/-- A shared secret for the concrete requests. -/
def wAmt : List Nat := utf8Bytes "s3cret"

/-- The single byte `x` (not valid JSON). -/
def oneX : List Nat := [120]

/-- An oracle parsing `oneX` to `null`. -/
def oneXOracle : List Nat → Option JValue :=
  fun bs => if bs = oneX then some JValue.jnull else none

/-- Headers announcing a one-byte JSON body, without a signature. -/
def w3Hdrs : Headers :=
  [("Content-Length", "1"), ("Content-Type", "application/json")]

/-- Raw body of an unknown-eventType request. -/
def wUBody : List Nat := utf8Bytes "\x7b\"eventType\":\"SOMETHING\"\x7d"

/-- Its parse. -/
def wUParsed : JValue := .jobj [("eventType", .jstr "SOMETHING")]

/-- Its oracle. -/
def wUOracle : List Nat → Option JValue :=
  fun bs => if bs = wUBody then some wUParsed else none

/-- Its headers, correctly signed. -/
def wUHdrs : Headers :=
  [("Content-Length", "25"),
   ("Content-Type", "application/json"),
   ("SC-Signature", sign wAmt wUBody)]

/-- A store with one unrelated vehicle. -/
def w4Store : Store := [("v9", [("x", JValue.jnull)])]

/-- Raw body of a VERIFY request with challenge `abc`. -/
def wVBody : List Nat :=
  utf8Bytes "\x7b\"eventType\":\"VERIFY\",\"data\":\x7b\"challenge\":\"abc\"\x7d\x7d"

/-- Its parse. -/
def wVParsed : JValue :=
  .jobj [("eventType", .jstr "VERIFY"),
         ("data", .jobj [("challenge", .jstr "abc")])]

/-- Its oracle. -/
def wVOracle : List Nat → Option JValue :=
  fun bs => if bs = wVBody then some wVParsed else none

/-- Its headers, correctly signed. -/
def wVHdrs : Headers :=
  [("Content-Length", "49"),
   ("Content-Type", "application/json"),
   ("SC-Signature", sign wAmt wVBody)]

/-- First VEHICLE_STATE payload data for vehicle `v1`. -/
def w1P1data : Obj :=
  [("vehicle", .jobj [("id", .jstr "v1"), ("make", .jstr "m1")]),
   ("signals", .jarr [.jstr "sig1"]),
   ("extra", .jnum 7)]

/-- First VEHICLE_STATE payload. -/
def w1P1 : JValue :=
  .jobj [("eventType", .jstr "VEHICLE_STATE"), ("data", .jobj w1P1data)]

/-- Second VEHICLE_STATE payload data for vehicle `v1` (no `extra`). -/
def w1P2data : Obj :=
  [("vehicle", .jobj [("id", .jstr "v1"), ("make", .jstr "m2")]),
   ("signals", .jarr [.jstr "sig2"])]

/-- Second VEHICLE_STATE payload. -/
def w1P2 : JValue :=
  .jobj [("eventType", .jstr "VEHICLE_STATE"), ("data", .jobj w1P2data)]

/-- Raw bodies of the two state requests. -/
def w1Body1 : List Nat := utf8Bytes "p1"

/-- Raw body of the second state request. -/
def w1Body2 : List Nat := utf8Bytes "p2"

/-- An oracle for both state requests. -/
def w1Oracle : List Nat → Option JValue :=
  fun bs =>
    if bs = w1Body1 then some w1P1
    else if bs = w1Body2 then some w1P2 else none

/-- Signed headers of the first state request. -/
def w1Hdrs1 : Headers :=
  [("Content-Length", "2"),
   ("Content-Type", "application/json"),
   ("SC-Signature", sign wAmt w1Body1)]

/-- Signed headers of the second state request. -/
def w1Hdrs2 : Headers :=
  [("Content-Length", "2"),
   ("Content-Type", "application/json"),
   ("SC-Signature", sign wAmt w1Body2)]

/-- The `DataSet` inserted for `v1` before the first merge. -/
def w1Base : Obj :=
  [("signals", .jarr [.jstr "sig1"]),
   ("vehicle", .jobj [("id", .jstr "v1"), ("make", .jstr "m1")])]

/-- The store after the first state request on an empty store. -/
def w1Store1 : Store :=
  aset (aset [] "v1" w1Base) "v1" (mergeInto w1Base w1P1data)

/-- The store after both state requests. -/
def w1Store2 : Store :=
  aset w1Store1 "v1" (mergeInto (mergeInto w1Base w1P1data) w1P2data)

/-- A prior store holding only vehicle `v2`. -/
def w8Store : Store := [("v2", [("vehicle", .jobj [("id", .jstr "v2")])])]

/-- The store after the first state request on `w8Store`. -/
def w8Store1 : Store :=
  aset (aset w8Store "v1" w1Base) "v1" (mergeInto w1Base w1P1data)

/-- A rendered-store signal: odometer, SUCCESS, with a unit. -/
def w5Sig1 : JValue :=
  .jobj [("code", .jstr "odometer-traveleddistance"),
         ("body", .jobj [("value", .jnum 123), ("unit", .jstr "kilometers")]),
         ("status", .jobj [("value", .jstr "SUCCESS")]),
         ("meta", .jobj [("oemUpdatedAt", .jnum 1700000000000)])]

/-- A boolean signal: locked, SUCCESS, no unit. -/
def w5Sig2 : JValue :=
  .jobj [("code", .jstr "closure-islocked"),
         ("body", .jobj [("value", .jbool true)]),
         ("status", .jobj [("value", .jstr "SUCCESS")]),
         ("meta", .jobj [("oemUpdatedAt", .jnum 1700000000500)])]

/-- A SUCCESS signal with a code absent from the gauge table. -/
def w5Sig3 : JValue :=
  .jobj [("code", .jstr "cabin-temperature"),
         ("status", .jobj [("value", .jstr "SUCCESS")])]

/-- An ERROR-status signal. -/
def w5Sig4 : JValue :=
  .jobj [("code", .jstr "odometer-traveleddistance"),
         ("status", .jobj [("value", .jstr "ERROR")])]

/-- A well-formed store snapshot exercising every rendering case. -/
def w5Store : Store :=
  [("v1", [("vehicle", .jobj [("id", .jstr "v1"), ("year", .jnum 2020)]),
           ("signals", .jarr [w5Sig1, w5Sig2, w5Sig3, w5Sig4])])]

/-! ## Association-list lemmas -/

theorem aget_aset {α : Type} (d : List (String × α)) (k1 k : String)
    (v1 : α) :
    aget (aset d k1 v1) k = if k1 == k then some v1 else aget d k := by
  induction d with
  | nil => simp [aset, aget]
  | cons p rest ih =>
    obtain ⟨k', v'⟩ := p
    by_cases h : k' = k1
    · subst h
      simp only [aset, beq_self_eq_true, if_true, aget]
      by_cases hk : k' = k
      · simp [hk]
      · simp [aget, hk, fun h' => hk (eq_of_beq h')]
    · have hb : (k' == k1) = false := beq_eq_false_iff_ne.mpr h
      simp only [aset, hb, if_false, aget, ih]
      by_cases hk : k' = k
      · subst hk
        have : (k1 == k') = false := beq_eq_false_iff_ne.mpr (fun h' => h h'.symm)
        simp [this]
      · have hb2 : (k' == k) = false := beq_eq_false_iff_ne.mpr hk
        simp [hb2]

theorem aget_append {α : Type} (d1 d2 : List (String × α)) (k : String) :
    aget (d1 ++ d2) k = oFirst (aget d1 k) (aget d2 k) := by
  induction d1 with
  | nil => simp [aget, oFirst]
  | cons p rest ih =>
    obtain ⟨k', v'⟩ := p
    by_cases h : k' = k
    · simp [aget, h, oFirst]
    · simp [aget, beq_eq_false_iff_ne.mpr h, ih]

theorem oFirst_none_right {α : Type} (a : Option α) : oFirst a none = a := by
  cases a <;> rfl

theorem aget_eq_none {α : Type} (d : List (String × α)) (k : String) :
    aget d k = none ↔ k ∉ d.map Prod.fst := by
  induction d with
  | nil => simp [aget]
  | cons p rest ih =>
    obtain ⟨k', v'⟩ := p
    by_cases h : k' = k
    · simp [aget, h]
    · have step : aget ((k', v') :: rest) k = aget rest k := by
        simp [aget, beq_eq_false_iff_ne.mpr h]
      rw [step, ih, List.map_cons]
      constructor
      · intro hk hmem
        rcases List.mem_cons.mp hmem with h1 | h2
        · exact h h1.symm
        · exact hk h2
      · intro hk h2
        exact hk (List.mem_cons.mpr (Or.inr h2))

theorem aget_reverse {α : Type} (d : List (String × α)) (k : String)
    (h : (d.map Prod.fst).Nodup) : aget d.reverse k = aget d k := by
  induction d with
  | nil => rfl
  | cons p rest ih =>
    obtain ⟨k', v'⟩ := p
    simp only [List.map_cons, List.nodup_cons] at h
    rw [List.reverse_cons, aget_append, ih h.2]
    by_cases hk : k' = k
    · subst hk
      have : aget rest k' = none := (aget_eq_none rest k').mpr h.1
      simp [this, aget, oFirst]
    · simp [aget, beq_eq_false_iff_ne.mpr hk, oFirst_none_right]

theorem mergeInto_aget (fs : Obj) (d : Obj) (k : String) :
    aget (mergeInto d fs) k = oFirst (aget fs.reverse k) (aget d k) := by
  induction fs generalizing d with
  | nil => simp [mergeInto, aget, oFirst]
  | cons p rest ih =>
    obtain ⟨k1, v1⟩ := p
    have step : mergeInto d ((k1, v1) :: rest) = mergeInto (aset d k1 v1) rest := rfl
    rw [step, ih, List.reverse_cons, aget_append, aget_aset]
    cases hr : aget rest.reverse k with
    | some v => simp [oFirst]
    | none =>
      by_cases hk : k1 = k
      · simp [oFirst, hk, aget]
      · simp [oFirst, beq_eq_false_iff_ne.mpr hk, aget]

/-- The merge law in its final pointwise form, assuming the incoming dict
(as every `json.loads` result) has no duplicate keys. -/
theorem mergeInto_aget_nodup (fs : Obj) (d : Obj) (k : String)
    (h : (fs.map Prod.fst).Nodup) :
    aget (mergeInto d fs) k = oFirst (aget fs k) (aget d k) := by
  rw [mergeInto_aget, aget_reverse fs k h]

/-! ## `do_POST` path lemmas -/

theorem do_POST_headerFail (amt : List Nat) (jl : List Nat → Option JValue)
    (hdrs : Headers) (rbody : List Nat) (store : Store)
    (h1 : check_bail_out_early hdrs = true) :
    do_POST amt jl hdrs rbody store =
      some ⟨fail "\x7berror=\"weird post\"\x7d\n", store⟩ := by
  simp [do_POST, h1]

theorem do_POST_badJson (amt : List Nat) (jl : List Nat → Option JValue)
    (hdrs : Headers) (rbody : List Nat) (store : Store) (clv : String)
    (n : Nat)
    (h1 : check_bail_out_early hdrs = false)
    (hCL : aget hdrs "Content-Length" = some clv)
    (hN : pyInt? clv = some n)
    (hJ : jl (rbody.take n) = none) :
    do_POST amt jl hdrs rbody store =
      some ⟨fail "\x7berror=\"weird json\"\x7d\n", store⟩ := by
  simp [do_POST, h1, hCL, hN, hJ]

theorem do_POST_badSig (amt : List Nat) (jl : List Nat → Option JValue)
    (hdrs : Headers) (rbody : List Nat) (store : Store) (clv : String)
    (n : Nat) (parsed : JValue)
    (h1 : check_bail_out_early hdrs = false)
    (hCL : aget hdrs "Content-Length" = some clv)
    (hN : pyInt? clv = some n)
    (hJ : jl (rbody.take n) = some parsed)
    (hS : aget hdrs "SC-Signature" ≠ some (sign amt (rbody.take n))) :
    do_POST amt jl hdrs rbody store =
      some ⟨fail "\x7berror=\"mismatched signage\"\x7d\n", store⟩ := by
  have hb : (aget hdrs "SC-Signature" ==
      some (sign amt (rbody.take n))) = false :=
    beq_eq_false_iff_ne.mpr hS
  simp [do_POST, h1, hCL, hN, hJ, hb]

theorem do_POST_verify (amt : List Nat) (jl : List Nat → Option JValue)
    (hdrs : Headers) (rbody : List Nat) (store : Store) (clv : String)
    (n : Nat) (parsed : JValue) (c : String)
    (h1 : check_bail_out_early hdrs = false)
    (hCL : aget hdrs "Content-Length" = some clv)
    (hN : pyInt? clv = some n)
    (hJ : jl (rbody.take n) = some parsed)
    (hS : aget hdrs "SC-Signature" = some (sign amt (rbody.take n)))
    (hE : jGet parsed "eventType" = some (JValue.jstr "VERIFY"))
    (hC : (jGet parsed "data").bind (fun d => jGet d "challenge") =
      some (JValue.jstr c)) :
    do_POST amt jl hdrs rbody store =
      some ⟨okHeaders ++ [.body ("\x7b\"challenge\": \"" ++
        sign amt (utf8Bytes c) ++ "\"\x7d")], store⟩ := by
  simp [do_POST, h1, hCL, hN, hJ, hS, hE, hC, pyEqStr]

theorem do_POST_unknown (amt : List Nat) (jl : List Nat → Option JValue)
    (hdrs : Headers) (rbody : List Nat) (store : Store) (clv : String)
    (n : Nat) (parsed : JValue) (et : JValue)
    (h1 : check_bail_out_early hdrs = false)
    (hCL : aget hdrs "Content-Length" = some clv)
    (hN : pyInt? clv = some n)
    (hJ : jl (rbody.take n) = some parsed)
    (hS : aget hdrs "SC-Signature" = some (sign amt (rbody.take n)))
    (hE : jGet parsed "eventType" = some et)
    (h2 : pyEqStr et "VERIFY" = false)
    (h3 : pyEqStr et "VEHICLE_ERROR" = false)
    (h4 : pyEqStr et "VEHICLE_STATE" = false) :
    do_POST amt jl hdrs rbody store =
      some ⟨okHeaders ++ fail "\x7berror=\"ignoring unknown eventType\"\n",
        store⟩ := by
  simp [do_POST, h1, hCL, hN, hJ, hS, hE, h2, h3, h4]

theorem do_POST_state (amt : List Nat) (jl : List Nat → Option JValue)
    (hdrs : Headers) (rbody : List Nat) (store : Store) (clv : String)
    (n : Nat) (parsed : JValue) (data : Obj) (store' : Store)
    (h1 : check_bail_out_early hdrs = false)
    (hCL : aget hdrs "Content-Length" = some clv)
    (hN : pyInt? clv = some n)
    (hJ : jl (rbody.take n) = some parsed)
    (hS : aget hdrs "SC-Signature" = some (sign amt (rbody.take n)))
    (hE : jGet parsed "eventType" = some (JValue.jstr "VEHICLE_STATE"))
    (hD : jGet parsed "data" = some (JValue.jobj data))
    (hA : applyVehicleState store data = some store') :
    do_POST amt jl hdrs rbody store =
      some ⟨okHeaders ++ [.body "\x7b\"success\":true\x7d"], store'⟩ := by
  simp [do_POST, h1, hCL, hN, hJ, hS, hE, hD, hA, pyEqStr]

/-! ## Claims -/

/-- Claim C6: HMAC round-trip — a signature equal to the lowercase hex
HMAC-SHA256 of the body under the secret passes the check, and any other
provided hex string fails it. -/
theorem c6_hmac_round_trip (S M : List Nat) (h : String) :
    verify S M (sign S M) = true ∧
    (h ≠ sign S M → verify S M h = false) :=
  ⟨by simp [verify],
   fun hne => by
    unfold verify
    exact beq_eq_false_iff_ne.mpr hne⟩

set_option maxRecDepth 10000 in
/-- Witness for C6 at a concrete secret, message and wrong hex string. -/
theorem c6_hmac_round_trip_witness :
    verify wAmt oneX (sign wAmt oneX) = true ∧
    verify wAmt oneX "00" = false :=
  ⟨(c6_hmac_round_trip wAmt oneX "00").1,
   (c6_hmac_round_trip wAmt oneX "00").2 (by decide)⟩

/-- Claim C9: a POST with `Content-Length`, `Content-Type` exactly
`application/json` and a parseable body but no `SC-Signature` header at
all passes the header check and is rejected by the signature check with
the mismatched-signage failure. -/
theorem c9_missing_signature (amt : List Nat)
    (jl : List Nat → Option JValue) (hdrs : Headers) (rbody : List Nat)
    (store : Store) (clv : String) (n : Nat) (parsed : JValue)
    (hCL : aget hdrs "Content-Length" = some clv)
    (hCT : aget hdrs "Content-Type" = some "application/json")
    (hN : pyInt? clv = some n)
    (hJ : jl (rbody.take n) = some parsed)
    (hNoSig : aget hdrs "SC-Signature" = none) :
    check_bail_out_early hdrs = false ∧
    do_POST amt jl hdrs rbody store =
      some ⟨fail "\x7berror=\"mismatched signage\"\x7d\n", store⟩ := by
  have h1 : check_bail_out_early hdrs = false := by
    simp [check_bail_out_early, ahas, hCL, hCT]
  refine ⟨h1,
    do_POST_badSig amt jl hdrs rbody store clv n parsed h1 hCL hN hJ ?_⟩
  rw [hNoSig]
  exact fun h => Option.noConfusion h

/-- Witness for C9 at a concrete unsigned request. -/
theorem c9_missing_signature_witness :
    check_bail_out_early w3Hdrs = false ∧
    do_POST wAmt oneXOracle w3Hdrs oneX [] =
      some ⟨fail "\x7berror=\"mismatched signage\"\x7d\n", []⟩ :=
  c9_missing_signature wAmt oneXOracle w3Hdrs oneX [] "1" 1 JValue.jnull
    rfl rfl rfl rfl rfl

/-- Counterexample to C3 as stated: the header-failure body the handler
writes is `\x7berror="weird post"\x7d` with a trailing newline — not the
JSON document `\x7b"error":"weird post"\x7d` of the interface table. -/
theorem c3_error_bodies_counterexample :
    do_POST wAmt noParse [] oneX [] =
      some ⟨fail "\x7berror=\"weird post\"\x7d\n", []⟩ ∧
    OutEvent.body "\x7b\"error\":\"weird post\"\x7d" ∉
      fail "\x7berror=\"weird post\"\x7d\n" ∧
    "\x7berror=\"weird post\"\x7d\n" ≠ "\x7b\"error\":\"weird post\"\x7d" := by
  refine ⟨do_POST_headerFail wAmt noParse [] oneX [] (by decide),
    by decide, by decide⟩

/-- Claim C3 (amended): the four failure bodies are the byte strings of
the source, `\x7berror="weird post"\x7d`, `\x7berror="weird json"\x7d`,
`\x7berror="mismatched signage"\x7d` (each newline-terminated, with an
unquoted key and `=` rather than `:`), and for an unknown eventType
`\x7berror="ignoring unknown eventType"` with no closing brace, written
after the already-sent 200 header block. -/
theorem c3_error_bodies_amended :
    (∀ amt jl hdrs rbody store,
      check_bail_out_early hdrs = true →
      do_POST amt jl hdrs rbody store =
        some ⟨fail "\x7berror=\"weird post\"\x7d\n", store⟩) ∧
    (∀ amt jl hdrs rbody store clv n,
      check_bail_out_early hdrs = false →
      aget hdrs "Content-Length" = some clv →
      pyInt? clv = some n →
      jl (rbody.take n) = none →
      do_POST amt jl hdrs rbody store =
        some ⟨fail "\x7berror=\"weird json\"\x7d\n", store⟩) ∧
    (∀ amt jl hdrs rbody store clv n parsed,
      check_bail_out_early hdrs = false →
      aget hdrs "Content-Length" = some clv →
      pyInt? clv = some n →
      jl (rbody.take n) = some parsed →
      aget hdrs "SC-Signature" ≠ some (sign amt (rbody.take n)) →
      do_POST amt jl hdrs rbody store =
        some ⟨fail "\x7berror=\"mismatched signage\"\x7d\n", store⟩) ∧
    (∀ amt jl hdrs rbody store clv n parsed et,
      check_bail_out_early hdrs = false →
      aget hdrs "Content-Length" = some clv →
      pyInt? clv = some n →
      jl (rbody.take n) = some parsed →
      aget hdrs "SC-Signature" = some (sign amt (rbody.take n)) →
      jGet parsed "eventType" = some et →
      pyEqStr et "VERIFY" = false →
      pyEqStr et "VEHICLE_ERROR" = false →
      pyEqStr et "VEHICLE_STATE" = false →
      do_POST amt jl hdrs rbody store =
        some ⟨okHeaders ++
          fail "\x7berror=\"ignoring unknown eventType\"\n", store⟩) :=
  ⟨fun amt jl hdrs rbody store h1 =>
     do_POST_headerFail amt jl hdrs rbody store h1,
   fun amt jl hdrs rbody store clv n h1 hCL hN hJ =>
     do_POST_badJson amt jl hdrs rbody store clv n h1 hCL hN hJ,
   fun amt jl hdrs rbody store clv n parsed h1 hCL hN hJ hS =>
     do_POST_badSig amt jl hdrs rbody store clv n parsed h1 hCL hN hJ hS,
   fun amt jl hdrs rbody store clv n parsed et h1 hCL hN hJ hS hE h2 h3 h4 =>
     do_POST_unknown amt jl hdrs rbody store clv n parsed et
       h1 hCL hN hJ hS hE h2 h3 h4⟩

/-- Witness for the amended C3: all four failure bodies at concrete
requests. -/
theorem c3_error_bodies_amended_witness :
    do_POST wAmt noParse [] oneX [] =
      some ⟨fail "\x7berror=\"weird post\"\x7d\n", []⟩ ∧
    do_POST wAmt noParse w3Hdrs oneX [] =
      some ⟨fail "\x7berror=\"weird json\"\x7d\n", []⟩ ∧
    do_POST wAmt oneXOracle w3Hdrs oneX [] =
      some ⟨fail "\x7berror=\"mismatched signage\"\x7d\n", []⟩ ∧
    do_POST wAmt wUOracle wUHdrs wUBody [] =
      some ⟨okHeaders ++
        fail "\x7berror=\"ignoring unknown eventType\"\n", []⟩ :=
  ⟨c3_error_bodies_amended.1 wAmt noParse [] oneX [] (by decide),
   c3_error_bodies_amended.2.1 wAmt noParse w3Hdrs oneX [] "1" 1
     (by decide) rfl rfl rfl,
   c3_error_bodies_amended.2.2.1 wAmt oneXOracle w3Hdrs oneX [] "1" 1
     JValue.jnull (by decide) rfl rfl rfl
     (by
       intro h
       rw [show aget w3Hdrs "SC-Signature" = (none : Option String)
         from rfl] at h
       exact Option.noConfusion h),
   c3_error_bodies_amended.2.2.2 wAmt wUOracle wUHdrs wUBody []
     "25" 25 wUParsed (JValue.jstr "SOMETHING")
     (by decide) rfl rfl rfl rfl rfl (by decide) (by decide) (by decide)⟩

/-- Claim C2, settled against the code: for a validly signed POST whose
eventType is unknown, the handler has already flushed the 200 header
block before `fail` runs, so the first status line on the wire — the
status the client sees — is 200, not 503; the 503 block lands inside the
body.  The store is not mutated. -/
theorem c2_unknown_event_first_status :
    do_POST wAmt wUOracle wUHdrs wUBody w4Store =
      some ⟨okHeaders ++
        fail "\x7berror=\"ignoring unknown eventType\"\n", w4Store⟩ ∧
    clientStatus (okHeaders ++
      fail "\x7berror=\"ignoring unknown eventType\"\n") = some 200 ∧
    OutEvent.status 503 ∈
      okHeaders ++ fail "\x7berror=\"ignoring unknown eventType\"\n" := by
  refine ⟨do_POST_unknown wAmt wUOracle wUHdrs wUBody w4Store
    "25" 25 wUParsed (JValue.jstr "SOMETHING")
    (by decide) rfl rfl rfl rfl rfl (by decide) (by decide) (by decide),
    by decide, by decide⟩

/-- Claim C4: every POST reaching the FAILED outcome (a 503 status line
on the wire) leaves the store exactly as it was. -/
theorem c4_failure_atomicity (amt : List Nat)
    (jl : List Nat → Option JValue) (hdrs : Headers) (rbody : List Nat)
    (store : Store) (r : PostResult)
    (h : do_POST amt jl hdrs rbody store = some r)
    (h503 : OutEvent.status 503 ∈ r.events) : r.store = store := by
  simp only [do_POST] at h
  repeat' split at h
  all_goals try exact Option.noConfusion h
  all_goals injection h with h
  all_goals subst h
  all_goals first
    | rfl
    | (exfalso; simp [okHeaders] at h503)

/-- Witness for C4 at a concrete failing request over a nonempty store. -/
theorem c4_failure_atomicity_witness :
    (PostResult.mk (fail "\x7berror=\"weird post\"\x7d\n") w4Store).store =
      w4Store :=
  c4_failure_atomicity wAmt noParse [] oneX w4Store
    ⟨fail "\x7berror=\"weird post\"\x7d\n", w4Store⟩ rfl (by decide)

/-! ## `applyVehicleState` lemmas -/

theorem applyVehicleState_new (store : Store) (data : Obj) (veh : JValue)
    (vid : String) (sigs : JValue)
    (hveh : aget data "vehicle" = some veh)
    (hid : jGet veh "id" = some (JValue.jstr vid))
    (hnew : aget store vid = none)
    (hsigs : aget data "signals" = some sigs) :
    applyVehicleState store data =
      some (aset (aset store vid (mkDataSet sigs veh)) vid
        (mergeInto (mkDataSet sigs veh) data)) := by
  simp [applyVehicleState, hveh, hid, hnew, hsigs]

theorem applyVehicleState_existing (store : Store) (data : Obj)
    (veh : JValue) (vid : String) (stored : Obj)
    (hveh : aget data "vehicle" = some veh)
    (hid : jGet veh "id" = some (JValue.jstr vid))
    (hold : aget store vid = some stored) :
    applyVehicleState store data =
      some (aset store vid (mergeInto stored data)) := by
  simp [applyVehicleState, hveh, hid, hold]

/-- Claim C7: a fully checked VERIFY POST answers 200 with body
`\x7b"challenge": D\x7d` where `D` is the lowercase hex HMAC-SHA256 of the
challenge string under the shared secret, without touching the store; two
such requests with the same secret and challenge (second conjunct) get the
identical digest. -/
theorem c7_verify_challenge (amt : List Nat)
    (jl jl2 : List Nat → Option JValue) (hdrs hdrs2 : Headers)
    (rbody rbody2 : List Nat) (store store2 : Store) (clv clv2 : String)
    (n n2 : Nat) (parsed parsed2 : JValue) (c : String)
    (h1 : check_bail_out_early hdrs = false)
    (hCL : aget hdrs "Content-Length" = some clv)
    (hN : pyInt? clv = some n)
    (hJ : jl (rbody.take n) = some parsed)
    (hS : aget hdrs "SC-Signature" = some (sign amt (rbody.take n)))
    (hE : jGet parsed "eventType" = some (JValue.jstr "VERIFY"))
    (hC : (jGet parsed "data").bind (fun d => jGet d "challenge") =
      some (JValue.jstr c))
    (h1' : check_bail_out_early hdrs2 = false)
    (hCL' : aget hdrs2 "Content-Length" = some clv2)
    (hN' : pyInt? clv2 = some n2)
    (hJ' : jl2 (rbody2.take n2) = some parsed2)
    (hS' : aget hdrs2 "SC-Signature" = some (sign amt (rbody2.take n2)))
    (hE' : jGet parsed2 "eventType" = some (JValue.jstr "VERIFY"))
    (hC' : (jGet parsed2 "data").bind (fun d => jGet d "challenge") =
      some (JValue.jstr c)) :
    do_POST amt jl hdrs rbody store =
      some ⟨okHeaders ++ [.body ("\x7b\"challenge\": \"" ++
        sign amt (utf8Bytes c) ++ "\"\x7d")], store⟩ ∧
    do_POST amt jl2 hdrs2 rbody2 store2 =
      some ⟨okHeaders ++ [.body ("\x7b\"challenge\": \"" ++
        sign amt (utf8Bytes c) ++ "\"\x7d")], store2⟩ :=
  ⟨do_POST_verify amt jl hdrs rbody store clv n parsed c
     h1 hCL hN hJ hS hE hC,
   do_POST_verify amt jl2 hdrs2 rbody2 store2 clv2 n2 parsed2 c
     h1' hCL' hN' hJ' hS' hE' hC'⟩

/-- Witness for C7: the same concrete VERIFY request handled over two
different stores yields the identical digest body. -/
theorem c7_verify_challenge_witness :
    do_POST wAmt wVOracle wVHdrs wVBody [] =
      some ⟨okHeaders ++ [.body ("\x7b\"challenge\": \"" ++
        sign wAmt (utf8Bytes "abc") ++ "\"\x7d")], []⟩ ∧
    do_POST wAmt wVOracle wVHdrs wVBody w4Store =
      some ⟨okHeaders ++ [.body ("\x7b\"challenge\": \"" ++
        sign wAmt (utf8Bytes "abc") ++ "\"\x7d")], w4Store⟩ :=
  c7_verify_challenge wAmt wVOracle wVOracle wVHdrs wVHdrs wVBody wVBody
    [] w4Store "49" "49" 49 49 wVParsed wVParsed "abc"
    (by decide) rfl rfl rfl rfl rfl rfl
    (by decide) rfl rfl rfl rfl rfl rfl

/-- Claim C1: handling two successful VEHICLE_STATE POSTs for a fresh
vehicle `V` leaves the store's entry for `V` equal to P1's data object
with every top-level key present in P2's data overwritten by P2's value
(shallow last-write-wins; at `k = "signals"` this is the wholesale list
replacement), while keys absent from P2 retain P1's value.  The key-sets
of both data dicts are duplicate-free, as every `json.loads` dict is. -/
theorem c1_merge_law (amt : List Nat) (jl1 jl2 : List Nat → Option JValue)
    (hdrs1 hdrs2 : Headers) (rbody1 rbody2 : List Nat) (store : Store)
    (clv1 clv2 : String) (n1 n2 : Nat) (parsed1 parsed2 : JValue)
    (P1 P2 v1 v2 : Obj) (s1 : JValue) (V : String) (k : String)
    (h11 : check_bail_out_early hdrs1 = false)
    (hCL1 : aget hdrs1 "Content-Length" = some clv1)
    (hN1 : pyInt? clv1 = some n1)
    (hJ1 : jl1 (rbody1.take n1) = some parsed1)
    (hS1 : aget hdrs1 "SC-Signature" = some (sign amt (rbody1.take n1)))
    (hE1 : jGet parsed1 "eventType" = some (JValue.jstr "VEHICLE_STATE"))
    (hD1 : jGet parsed1 "data" = some (JValue.jobj P1))
    (hveh1 : aget P1 "vehicle" = some (JValue.jobj v1))
    (hid1 : aget v1 "id" = some (JValue.jstr V))
    (hsig1 : aget P1 "signals" = some s1)
    (hfresh : aget store V = none)
    (hnd1 : (P1.map Prod.fst).Nodup)
    (h21 : check_bail_out_early hdrs2 = false)
    (hCL2 : aget hdrs2 "Content-Length" = some clv2)
    (hN2 : pyInt? clv2 = some n2)
    (hJ2 : jl2 (rbody2.take n2) = some parsed2)
    (hS2 : aget hdrs2 "SC-Signature" = some (sign amt (rbody2.take n2)))
    (hE2 : jGet parsed2 "eventType" = some (JValue.jstr "VEHICLE_STATE"))
    (hD2 : jGet parsed2 "data" = some (JValue.jobj P2))
    (hveh2 : aget P2 "vehicle" = some (JValue.jobj v2))
    (hid2 : aget v2 "id" = some (JValue.jstr V))
    (hnd2 : (P2.map Prod.fst).Nodup) :
    do_POST amt jl1 hdrs1 rbody1 store =
      some ⟨okHeaders ++ [.body "\x7b\"success\":true\x7d"],
        aset (aset store V (mkDataSet s1 (JValue.jobj v1))) V
          (mergeInto (mkDataSet s1 (JValue.jobj v1)) P1)⟩ ∧
    do_POST amt jl2 hdrs2 rbody2
        (aset (aset store V (mkDataSet s1 (JValue.jobj v1))) V
          (mergeInto (mkDataSet s1 (JValue.jobj v1)) P1)) =
      some ⟨okHeaders ++ [.body "\x7b\"success\":true\x7d"],
        aset (aset (aset store V (mkDataSet s1 (JValue.jobj v1))) V
            (mergeInto (mkDataSet s1 (JValue.jobj v1)) P1)) V
          (mergeInto (mergeInto (mkDataSet s1 (JValue.jobj v1)) P1) P2)⟩ ∧
    aget (aset (aset (aset store V (mkDataSet s1 (JValue.jobj v1))) V
        (mergeInto (mkDataSet s1 (JValue.jobj v1)) P1)) V
      (mergeInto (mergeInto (mkDataSet s1 (JValue.jobj v1)) P1) P2)) V =
      some (mergeInto (mergeInto (mkDataSet s1 (JValue.jobj v1)) P1) P2) ∧
    aget (mergeInto (mergeInto (mkDataSet s1 (JValue.jobj v1)) P1) P2) k =
      oFirst (aget P2 k) (aget P1 k) := by
  have hA1 : applyVehicleState store P1 =
      some (aset (aset store V (mkDataSet s1 (JValue.jobj v1))) V
        (mergeInto (mkDataSet s1 (JValue.jobj v1)) P1)) :=
    applyVehicleState_new store P1 (JValue.jobj v1) V s1 hveh1 hid1
      hfresh hsig1
  have hstore1V : aget (aset (aset store V (mkDataSet s1 (JValue.jobj v1)))
      V (mergeInto (mkDataSet s1 (JValue.jobj v1)) P1)) V =
      some (mergeInto (mkDataSet s1 (JValue.jobj v1)) P1) := by
    rw [aget_aset]
    simp
  have hA2 : applyVehicleState
      (aset (aset store V (mkDataSet s1 (JValue.jobj v1))) V
        (mergeInto (mkDataSet s1 (JValue.jobj v1)) P1)) P2 =
      some (aset (aset (aset store V (mkDataSet s1 (JValue.jobj v1))) V
          (mergeInto (mkDataSet s1 (JValue.jobj v1)) P1)) V
        (mergeInto (mergeInto (mkDataSet s1 (JValue.jobj v1)) P1) P2)) :=
    applyVehicleState_existing _ P2 (JValue.jobj v2) V _ hveh2 hid2 hstore1V
  refine ⟨do_POST_state amt jl1 hdrs1 rbody1 store clv1 n1 parsed1 P1 _
      h11 hCL1 hN1 hJ1 hS1 hE1 hD1 hA1,
    do_POST_state amt jl2 hdrs2 rbody2 _ clv2 n2 parsed2 P2 _
      h21 hCL2 hN2 hJ2 hS2 hE2 hD2 hA2,
    by rw [aget_aset]; simp,
    ?_⟩
  have hentry1 : aget (mergeInto (mkDataSet s1 (JValue.jobj v1)) P1) k =
      aget P1 k := by
    rw [mergeInto_aget_nodup P1 (mkDataSet s1 (JValue.jobj v1)) k hnd1]
    cases hP1k : aget P1 k with
    | some v => rfl
    | none =>
      have hks : ¬("signals" == k) = true := by
        intro hb
        rw [eq_of_beq hb] at hsig1
        rw [hP1k] at hsig1
        exact Option.noConfusion hsig1
      have hkv : ¬("vehicle" == k) = true := by
        intro hb
        rw [eq_of_beq hb] at hveh1
        rw [hP1k] at hveh1
        exact Option.noConfusion hveh1
      simp [mkDataSet, aget, oFirst, hks, hkv]
  rw [mergeInto_aget_nodup P2 _ k hnd2, hentry1]

/-- Witness for C1: two concrete state posts for vehicle `v1`; at
`k = "extra"` the merged entry keeps P1's value, the signals list having
been replaced. -/
theorem c1_merge_law_witness :
    do_POST wAmt w1Oracle w1Hdrs1 w1Body1 [] =
      some ⟨okHeaders ++ [.body "\x7b\"success\":true\x7d"], w1Store1⟩ ∧
    do_POST wAmt w1Oracle w1Hdrs2 w1Body2 w1Store1 =
      some ⟨okHeaders ++ [.body "\x7b\"success\":true\x7d"], w1Store2⟩ ∧
    aget w1Store2 "v1" =
      some (mergeInto (mergeInto w1Base w1P1data) w1P2data) ∧
    aget (mergeInto (mergeInto w1Base w1P1data) w1P2data) "extra" =
      oFirst (aget w1P2data "extra") (aget w1P1data "extra") :=
  c1_merge_law wAmt w1Oracle w1Oracle w1Hdrs1 w1Hdrs2 w1Body1 w1Body2 []
    "2" "2" 2 2 w1P1 w1P2 w1P1data w1P2data
    ([("id", JValue.jstr "v1"), ("make", JValue.jstr "m1")])
    ([("id", JValue.jstr "v1"), ("make", JValue.jstr "m2")])
    (JValue.jarr [JValue.jstr "sig1"]) "v1" "extra"
    (by decide) rfl rfl rfl rfl rfl rfl rfl rfl rfl rfl (by decide)
    (by decide) rfl rfl rfl rfl rfl rfl rfl rfl (by decide)

/-- Claim C8: a VEHICLE_STATE event for vehicle `A` leaves the stored
entry of every other id `B` unchanged. -/
theorem c8_isolation (amt : List Nat) (jl : List Nat → Option JValue)
    (hdrs : Headers) (rbody : List Nat) (store : Store) (clv : String)
    (n : Nat) (parsed : JValue) (data : Obj) (veh : JValue)
    (store' : Store) (A B : String)
    (h1 : check_bail_out_early hdrs = false)
    (hCL : aget hdrs "Content-Length" = some clv)
    (hN : pyInt? clv = some n)
    (hJ : jl (rbody.take n) = some parsed)
    (hS : aget hdrs "SC-Signature" = some (sign amt (rbody.take n)))
    (hE : jGet parsed "eventType" = some (JValue.jstr "VEHICLE_STATE"))
    (hD : jGet parsed "data" = some (JValue.jobj data))
    (hveh : aget data "vehicle" = some veh)
    (hid : jGet veh "id" = some (JValue.jstr A))
    (hA : applyVehicleState store data = some store')
    (hB : B ≠ A) :
    do_POST amt jl hdrs rbody store =
      some ⟨okHeaders ++ [.body "\x7b\"success\":true\x7d"], store'⟩ ∧
    aget store' B = aget store B := by
  refine ⟨do_POST_state amt jl hdrs rbody store clv n parsed data store'
    h1 hCL hN hJ hS hE hD hA, ?_⟩
  have hAB : ¬(A == B) = true := by
    intro hb
    exact hB (eq_of_beq hb).symm
  simp only [applyVehicleState, hveh, hid] at hA
  cases hold : aget store A with
  | some stored =>
    rw [hold] at hA
    simp only [Option.some.injEq] at hA
    subst hA
    rw [aget_aset]
    simp [hAB]
  | none =>
    rw [hold] at hA
    cases hsigs : aget data "signals" with
    | none =>
      rw [hsigs] at hA
      exact Option.noConfusion hA
    | some sigs =>
      rw [hsigs] at hA
      simp only [Option.some.injEq] at hA
      subst hA
      rw [aget_aset, aget_aset]
      simp [hAB]

/-- Witness for C8: a state post for `v1` over a store holding `v2`
leaves `v2`'s entry untouched. -/
theorem c8_isolation_witness :
    do_POST wAmt w1Oracle w1Hdrs1 w1Body1 w8Store =
      some ⟨okHeaders ++ [.body "\x7b\"success\":true\x7d"], w8Store1⟩ ∧
    aget w8Store1 "v2" = aget w8Store "v2" :=
  c8_isolation wAmt w1Oracle w1Hdrs1 w1Body1 w8Store "2" 2 w1P1 w1P1data
    (JValue.jobj [("id", JValue.jstr "v1"), ("make", JValue.jstr "m1")])
    w8Store1 "v1" "v2"
    (by decide) rfl rfl rfl rfl rfl rfl rfl rfl rfl (by decide)

/-- Merging a duplicate-key-free `data` dict preserves the store's
key-consistency invariant entry by entry. -/
theorem applyVehicleState_keyConsistent (store : Store) (data : Obj) (store' : Store)
    (K : String) (e : Obj)
    (hnd : (data.map Prod.fst).Nodup)
    (hA : applyVehicleState store data = some store')
    (hInv : storeKeyConsistent store)
    (hK : aget store' K = some e) :
    entryConsistent K e = true := by
  simp only [applyVehicleState] at hA
  cases hveh : aget data "vehicle" with
  | none =>
    simp only [hveh] at hA
    exact Option.noConfusion hA
  | some veh =>
    simp only [hveh] at hA
    cases hid : jGet veh "id" with
    | none =>
      simp only [hid] at hA
      exact Option.noConfusion hA
    | some idv =>
      simp only [hid] at hA
      cases idv with
      | jstr vid =>
        have hvf : ∃ vf, veh = JValue.jobj vf := by
          cases veh with
          | jobj vf => exact ⟨vf, rfl⟩
          | jnull => exact Option.noConfusion hid
          | jbool b => exact Option.noConfusion hid
          | jnum m => exact Option.noConfusion hid
          | jstr t => exact Option.noConfusion hid
          | jarr l => exact Option.noConfusion hid
        obtain ⟨vf, rfl⟩ := hvf
        have hidvf : aget vf "id" = some (JValue.jstr vid) := hid
        have hmerge : ∀ d : Obj, aget (mergeInto d data) "vehicle" =
            some (JValue.jobj vf) := by
          intro d
          rw [mergeInto_aget_nodup data d "vehicle" hnd, hveh]
          rfl
        cases hold : aget store vid with
        | some stored =>
          simp only [hold, Option.some.injEq] at hA
          subst hA
          rw [aget_aset] at hK
          by_cases hvK : vid = K
          · subst hvK
            simp only [beq_self_eq_true, if_true, Option.some.injEq] at hK
            subst hK
            simp [entryConsistent, hmerge, hidvf]
          · rw [if_neg (by simpa using hvK)] at hK
            exact hInv K e hK
        | none =>
          simp only [hold] at hA
          cases hsigs : aget data "signals" with
          | none =>
            simp only [hsigs] at hA
            exact Option.noConfusion hA
          | some sigs =>
            simp only [hsigs, Option.some.injEq] at hA
            subst hA
            rw [aget_aset] at hK
            by_cases hvK : vid = K
            · subst hvK
              simp only [beq_self_eq_true, if_true, Option.some.injEq] at hK
              subst hK
              simp [entryConsistent, hmerge, hidvf]
            · rw [if_neg (by simpa using hvK), aget_aset,
                if_neg (by simpa using hvK)] at hK
              exact hInv K e hK
      | jnull => exact Option.noConfusion hA
      | jbool b => exact Option.noConfusion hA
      | jnum m => exact Option.noConfusion hA
      | jarr l => exact Option.noConfusion hA
      | jobj f => exact Option.noConfusion hA

/-- Claim C10: key consistency — if every id in the store maps to an
entry whose `vehicle.id` equals it, then after a successfully handled
VEHICLE_STATE event (whose data dict, like every `json.loads` dict, has
duplicate-free keys) the same holds: the new or merged entry is keyed by
`data.vehicle.id` and its `vehicle` key holds that same vehicle object. -/
theorem c10_key_consistency (amt : List Nat)
    (jl : List Nat → Option JValue) (hdrs : Headers) (rbody : List Nat)
    (store : Store) (clv : String) (n : Nat) (parsed : JValue)
    (data : Obj) (store' : Store) (K : String) (e : Obj)
    (h1 : check_bail_out_early hdrs = false)
    (hCL : aget hdrs "Content-Length" = some clv)
    (hN : pyInt? clv = some n)
    (hJ : jl (rbody.take n) = some parsed)
    (hS : aget hdrs "SC-Signature" = some (sign amt (rbody.take n)))
    (hE : jGet parsed "eventType" = some (JValue.jstr "VEHICLE_STATE"))
    (hD : jGet parsed "data" = some (JValue.jobj data))
    (hnd : (data.map Prod.fst).Nodup)
    (hA : applyVehicleState store data = some store')
    (hInv : storeKeyConsistent store)
    (hK : aget store' K = some e) :
    do_POST amt jl hdrs rbody store =
      some ⟨okHeaders ++ [.body "\x7b\"success\":true\x7d"], store'⟩ ∧
    entryConsistent K e = true :=
  ⟨do_POST_state amt jl hdrs rbody store clv n parsed data store'
     h1 hCL hN hJ hS hE hD hA,
   applyVehicleState_keyConsistent store data store' K e hnd hA hInv hK⟩

/-- Witness for C10: the first state post on the empty store yields a
store whose single entry is keyed by its own `vehicle.id`. -/
theorem c10_key_consistency_witness :
    do_POST wAmt w1Oracle w1Hdrs1 w1Body1 [] =
      some ⟨okHeaders ++ [.body "\x7b\"success\":true\x7d"], w1Store1⟩ ∧
    entryConsistent "v1" (mergeInto w1Base w1P1data) = true :=
  c10_key_consistency wAmt w1Oracle w1Hdrs1 w1Body1 [] "2" 2 w1P1
    w1P1data w1Store1 "v1" (mergeInto w1Base w1P1data)
    (by decide) rfl rfl rfl rfl rfl rfl (by decide) rfl
    (fun k e h => Option.noConfusion h) rfl

/-! ## Rendering lemmas -/

theorem isPrefixOf_append_self {α : Type} [BEq α] [LawfulBEq α]
    (l t : List α) : l.isPrefixOf (l ++ t) = true := by
  induction l with
  | nil => simp [List.isPrefixOf]
  | cons a as ih => simp [List.isPrefixOf, ih]

theorem strStarts_append_self (p t : String) : strStarts (p ++ t) p = true := by
  unfold strStarts
  rw [String.data_append]
  exact isPrefixOf_append_self p.data t.data

theorem isPrefixOf_false_head (l m : List Char) (d c : Char)
    (hl : l.head? = some d) (hm : m.head? = some c) (h : d ≠ c) :
    l.isPrefixOf m = false := by
  cases l with
  | nil => simp at hl
  | cons a as =>
    cases m with
    | nil => simp at hm
    | cons b bs =>
      simp only [List.head?_cons, Option.some.injEq] at hl hm
      subst hl; subst hm
      simp [List.isPrefixOf, beq_eq_false_iff_ne.mpr h]

theorem isGaugeSample_false_of_head (s : String) (c : Char)
    (hm : s.data.head? = some c)
    (h1 : c ≠ 's') (h2 : c ≠ 'o') (h3 : c ≠ 'l') (h4 : c ≠ 'a')
    (h5 : c ≠ 'd') : isGaugeSample s = false := by
  have e1 : strStarts s "stateofcharge\x7bvehicleid=\"" = false :=
    isPrefixOf_false_head _ _ 's' c rfl hm (fun hh => h1 hh.symm)
  have e2 : strStarts s "odometer\x7bvehicleid=\"" = false :=
    isPrefixOf_false_head _ _ 'o' c rfl hm (fun hh => h2 hh.symm)
  have e3 : strStarts s "locked\x7bvehicleid=\"" = false :=
    isPrefixOf_false_head _ _ 'l' c rfl hm (fun hh => h3 hh.symm)
  have e4 : strStarts s "online\x7bvehicleid=\"" = false :=
    isPrefixOf_false_head _ _ 'o' c rfl hm (fun hh => h2 hh.symm)
  have e5 : strStarts s "asleep\x7bvehicleid=\"" = false :=
    isPrefixOf_false_head _ _ 'a' c rfl hm (fun hh => h4 hh.symm)
  have e6 : strStarts s "digitalkeypaired\x7bvehicleid=\"" = false :=
    isPrefixOf_false_head _ _ 'd' c rfl hm (fun hh => h5 hh.symm)
  simp [isGaugeSample, gaugeTable, e1, e2, e3, e4, e5, e6]

theorem isGaugeSample_table_sample (g : String × String)
    (hg : g ∈ gaugeTable) (t : String) :
    isGaugeSample ((g.2 ++ "\x7bvehicleid=\"") ++ t) = true :=
  List.any_eq_true.mpr ⟨g, hg, strStarts_append_self _ _⟩

theorem gaugeSamples_append (a b : List OutEvent) :
    gaugeSamples (a ++ b) = gaugeSamples a ++ gaugeSamples b :=
  List.filterMap_append a b _

theorem gaugeStep_fold_skip (s : JValue) (inst : String) (c : JValue)
    (tbl : List (String × String)) (acc : List OutEvent)
    (hnone : ∀ g ∈ tbl, pyEqStr c g.1 = false) :
    tbl.foldl (gaugeStep s inst c) (some acc) = some acc := by
  induction tbl with
  | nil => rfl
  | cons g rest ih =>
    rw [List.foldl_cons]
    have hg : pyEqStr c g.1 = false := hnone g (List.mem_cons_self g rest)
    have step : gaugeStep s inst c (some acc) g = some acc := by
      simp [gaugeStep, hg]
    rw [step]
    exact ih (fun g' hmem => hnone g' (List.mem_cons_of_mem g hmem))

theorem gaugeStep_fold_single (s : JValue) (inst : String) (c : String)
    (pre post : List (String × String)) (g : String × String)
    (bf : List (String × JValue)) (v : JValue) (t : Int)
    (hpre : ∀ g' ∈ pre, pyEqStr (JValue.jstr c) g'.1 = false)
    (hpost : ∀ g' ∈ post, pyEqStr (JValue.jstr c) g'.1 = false)
    (hgc : (c == g.1) = true)
    (hb : jGet s "body" = some (JValue.jobj bf))
    (hv : jGet (JValue.jobj bf) "value" = some v)
    (ht : (jGet s "meta").bind (fun m => jGet m "oemUpdatedAt") =
      some (JValue.jnum t)) :
    (pre ++ g :: post).foldl (gaugeStep s inst (JValue.jstr c)) (some []) =
      some ([OutEvent.body ("# TYPE " ++ (g.2 ++ " gauge\n"))] ++
        (if ahas bf "unit" then
          [OutEvent.body ("# UNIT " ++ (g.2 ++ (" " ++
            (pyStr ((aget bf "unit").getD .jnull) ++ "\n"))))]
         else []) ++
        [OutEvent.body ((g.2 ++ "\x7bvehicleid=\"") ++
          (inst ++ ("\"\x7d " ++ (pyStr (coerce v) ++
            ((" " ++ toString (Int.fdiv t 1000)) ++ "\n")))))]) := by
  rw [List.foldl_append, gaugeStep_fold_skip s inst _ pre [] hpre,
    List.foldl_cons]
  have step : gaugeStep s inst (JValue.jstr c) (some []) g =
      some ([OutEvent.body ("# TYPE " ++ (g.2 ++ " gauge\n"))] ++
        (if ahas bf "unit" then
          [OutEvent.body ("# UNIT " ++ (g.2 ++ (" " ++
            (pyStr ((aget bf "unit").getD .jnull) ++ "\n"))))]
         else []) ++
        [OutEvent.body ((g.2 ++ "\x7bvehicleid=\"") ++
          (inst ++ ("\"\x7d " ++ (pyStr (coerce v) ++
            ((" " ++ toString (Int.fdiv t 1000)) ++ "\n")))))]) := by
    have hpy : pyEqStr (JValue.jstr c) g.1 = true := hgc
    simp [gaugeStep, hpy, hb, hv, ht]
  rw [step]
  exact gaugeStep_fold_skip s inst _ post _ hpost

theorem find?_split {α : Type} (p : α → Bool) (l : List α) (a : α)
    (h : l.find? p = some a) :
    ∃ pre post, l = pre ++ a :: post ∧ ∀ x ∈ pre, p x = false := by
  induction l with
  | nil => simp at h
  | cons b rest ih =>
    rw [List.find?_cons] at h
    cases hpb : p b with
    | true =>
      rw [hpb] at h
      simp only [cond_true, Option.some.injEq] at h
      subst h
      exact ⟨[], rest, rfl, by simp⟩
    | false =>
      rw [hpb] at h
      simp only [cond_false] at h
      obtain ⟨pre, post, hsplit, hpre⟩ := ih h
      refine ⟨b :: pre, post, by rw [hsplit]; rfl, ?_⟩
      intro x hx
      rcases List.mem_cons.mp hx with rfl | hx'
      · exact hpb
      · exact hpre x hx'

theorem isGaugeSample_type_line (tail : String) :
    isGaugeSample ("# TYPE " ++ tail) = false :=
  isGaugeSample_false_of_head _ '#' rfl (by decide) (by decide) (by decide)
    (by decide) (by decide)

theorem isGaugeSample_unit_line (tail : String) :
    isGaugeSample ("# UNIT " ++ tail) = false :=
  isGaugeSample_false_of_head _ '#' rfl (by decide) (by decide) (by decide)
    (by decide) (by decide)

theorem gaugeSamples_cons (e : OutEvent) (rest : List OutEvent) :
    gaugeSamples (e :: rest) =
      (match e with
       | .body x => if isGaugeSample x then [x] else []
       | _ => []) ++ gaugeSamples rest := by
  cases e with
  | body x =>
    by_cases hx : isGaugeSample x <;>
      simp [gaugeSamples, List.filterMap_cons, hx]
  | status c => simp [gaugeSamples, List.filterMap_cons]
  | header k v => simp [gaugeSamples, List.filterMap_cons]
  | endHeaders => simp [gaugeSamples, List.filterMap_cons]

theorem gaugeSamples_cons_body (x : String) (rest : List OutEvent) :
    gaugeSamples (OutEvent.body x :: rest) =
      (if isGaugeSample x then [x] else []) ++ gaugeSamples rest := by
  by_cases hx : isGaugeSample x <;>
    simp [gaugeSamples, List.filterMap_cons, hx]

theorem write_signal_char (s : JValue) (inst : String)
    (hwf : wfSignal s = true) (hsucc : statusSuccess s = true) :
    ∃ evts, write_signal s inst = some evts ∧
      gaugeSamples evts =
        (if sigMatches s then [specSample inst s] else []) := by
  cases hst : (jGet s "status").bind (fun st => jGet st "value") with
  | none =>
    unfold statusSuccess at hsucc
    simp only [hst] at hsucc
    exact Bool.noConfusion hsucc
  | some sv =>
    have hsv : pyEqStr sv "SUCCESS" = true := by
      unfold statusSuccess at hsucc
      simp only [hst] at hsucc
      exact hsucc
    unfold wfSignal at hwf
    simp only [hst, hsv, if_true] at hwf
    cases hcode : jGet s "code" with
    | none =>
      simp only [hcode] at hwf
      exact Bool.noConfusion hwf
    | some cv =>
      simp only [hcode] at hwf
      cases cv with
      | jnull =>
        refine ⟨[], ?_, ?_⟩
        · simp only [write_signal, hcode]
          exact gaugeStep_fold_skip s inst _ gaugeTable [] (fun g _ => rfl)
        · simp [sigMatches, hcode, gaugeSamples]
      | jbool b =>
        refine ⟨[], ?_, ?_⟩
        · simp only [write_signal, hcode]
          exact gaugeStep_fold_skip s inst _ gaugeTable [] (fun g _ => rfl)
        · simp [sigMatches, hcode, gaugeSamples]
      | jnum m =>
        refine ⟨[], ?_, ?_⟩
        · simp only [write_signal, hcode]
          exact gaugeStep_fold_skip s inst _ gaugeTable [] (fun g _ => rfl)
        · simp [sigMatches, hcode, gaugeSamples]
      | jarr l =>
        refine ⟨[], ?_, ?_⟩
        · simp only [write_signal, hcode]
          exact gaugeStep_fold_skip s inst _ gaugeTable [] (fun g _ => rfl)
        · simp [sigMatches, hcode, gaugeSamples]
      | jobj f =>
        refine ⟨[], ?_, ?_⟩
        · simp only [write_signal, hcode]
          exact gaugeStep_fold_skip s inst _ gaugeTable [] (fun g _ => rfl)
        · simp [sigMatches, hcode, gaugeSamples]
      | jstr c =>
        cases hgn : gaugeName c with
        | none =>
          have hfind : gaugeTable.find? (fun g => g.1 == c) = none := by
            unfold gaugeName at hgn
            exact Option.map_eq_none'.mp hgn
          have hnone : ∀ g ∈ gaugeTable,
              pyEqStr (JValue.jstr c) g.1 = false := by
            intro g hg
            have hne := List.find?_eq_none.mp hfind g hg
            have hgc : g.1 ≠ c := fun hh => hne (by rw [hh]; simp)
            show (c == g.1) = false
            exact beq_eq_false_iff_ne.mpr (fun hh => hgc hh.symm)
          refine ⟨[], ?_, ?_⟩
          · simp only [write_signal, hcode]
            exact gaugeStep_fold_skip s inst _ gaugeTable [] hnone
          · simp [sigMatches, hcode, hgn, gaugeSamples]
        | some name =>
          simp only [hgn, Option.isSome_some, if_true] at hwf
          rw [Bool.and_eq_true] at hwf
          obtain ⟨hb0, hm0⟩ := hwf
          obtain ⟨v, hv0⟩ := Option.isSome_iff_exists.mp hb0
          cases hmt : (jGet s "meta").bind (fun m => jGet m "oemUpdatedAt") with
          | none =>
            rw [hmt] at hm0
            exact Bool.noConfusion hm0
          | some mv =>
            rw [hmt] at hm0
            cases mv with
            | jnum t =>
              cases hb : jGet s "body" with
              | none =>
                rw [hb] at hv0
                simp at hv0
              | some b0 =>
                rw [hb] at hv0
                simp only [Option.some_bind] at hv0
                cases b0 with
                | jobj bf =>
                  unfold gaugeName at hgn
                  obtain ⟨g, hfind, hg2⟩ := Option.map_eq_some'.mp hgn
                  subst hg2
                  have hpred : (g.1 == c) = true := by
                    simpa using List.find?_some hfind
                  have hc : g.1 = c := eq_of_beq hpred
                  have hgmem : g ∈ gaugeTable :=
                    List.mem_of_find?_eq_some hfind
                  obtain ⟨pre, post, hsplit, hpre'⟩ :=
                    find?_split _ _ _ hfind
                  have hndT : (gaugeTable.map Prod.fst).Nodup := by decide
                  rw [hsplit, List.map_append, List.map_cons] at hndT
                  have hgpost : g.1 ∉ post.map Prod.fst :=
                    (List.nodup_cons.mp (List.nodup_append.mp hndT).2.1).1
                  have hpre : ∀ g' ∈ pre,
                      pyEqStr (JValue.jstr c) g'.1 = false := by
                    intro g' hgp
                    have hf := hpre' g' hgp
                    show (c == g'.1) = false
                    exact beq_eq_false_iff_ne.mpr
                      (fun hh => (beq_eq_false_iff_ne.mp hf) hh.symm)
                  have hpost : ∀ g' ∈ post,
                      pyEqStr (JValue.jstr c) g'.1 = false := by
                    intro g' hgp
                    show (c == g'.1) = false
                    refine beq_eq_false_iff_ne.mpr (fun hh => ?_)
                    exact hgpost (List.mem_map.mpr
                      ⟨g', hgp, (hc.trans hh).symm⟩)
                  refine ⟨[OutEvent.body ("# TYPE " ++ (g.2 ++ " gauge\n"))] ++
                    (if ahas bf "unit" then
                      [OutEvent.body ("# UNIT " ++ (g.2 ++ (" " ++
                        (pyStr ((aget bf "unit").getD .jnull) ++ "\n"))))]
                     else []) ++
                    [OutEvent.body ((g.2 ++ "\x7bvehicleid=\"") ++
                      (inst ++ ("\"\x7d " ++ (pyStr (coerce v) ++
                        ((" " ++ toString (Int.fdiv t 1000)) ++ "\n")))))],
                    ?_, ?_⟩
                  · simp only [write_signal, hcode]
                    rw [hsplit]
                    exact gaugeStep_fold_single s inst c pre post g bf v t
                      hpre hpost (by rw [hc]; exact beq_self_eq_true c) hb hv0 hmt
                  · have hsm : sigMatches s = true := by
                      simp only [sigMatches, hcode]
                      rw [show gaugeName c = some g.2 from by
                        unfold gaugeName; rw [hfind]; rfl]
                      rfl
                    rw [hsm, if_pos rfl]
                    have hspec : specSample inst s =
                        (g.2 ++ "\x7bvehicleid=\"") ++
                          (inst ++ ("\"\x7d " ++ (pyStr (coerce v) ++
                            ((" " ++ toString (Int.fdiv t 1000)) ++
                              "\n")))) := by
                      unfold specSample codeOf valOf tsOf
                      simp only [hcode]
                      rw [show gaugeName c = some g.2 from by
                        unfold gaugeName; rw [hfind]; rfl]
                      rw [hb]
                      simp only [Option.some_bind, hv0, hmt,
                        Option.getD_some]
                    rw [hspec]
                    rw [gaugeSamples_append, gaugeSamples_append]
                    have h1 : gaugeSamples
                        [OutEvent.body ("# TYPE " ++ (g.2 ++ " gauge\n"))] =
                        [] := by
                      rw [gaugeSamples_cons_body, isGaugeSample_type_line]
                      rfl
                    have h2 : gaugeSamples
                        (if ahas bf "unit" then
                          [OutEvent.body ("# UNIT " ++ (g.2 ++ (" " ++
                            (pyStr ((aget bf "unit").getD .jnull) ++
                              "\n"))))]
                         else []) = [] := by
                      by_cases hu : ahas bf "unit"
                      · rw [if_pos hu, gaugeSamples_cons_body,
                          isGaugeSample_unit_line]
                        rfl
                      · rw [if_neg hu]
                        rfl
                    have h3 : gaugeSamples
                        [OutEvent.body ((g.2 ++ "\x7bvehicleid=\"") ++
                          (inst ++ ("\"\x7d " ++ (pyStr (coerce v) ++
                            ((" " ++ toString (Int.fdiv t 1000)) ++
                              "\n")))))] =
                        [(g.2 ++ "\x7bvehicleid=\"") ++
                          (inst ++ ("\"\x7d " ++ (pyStr (coerce v) ++
                            ((" " ++ toString (Int.fdiv t 1000)) ++
                              "\n"))))] := by
                      rw [gaugeSamples_cons_body,
                        isGaugeSample_table_sample g hgmem]
                      rfl
                    rw [h1, h2, h3]
                    rfl
                | jnull => exact Option.noConfusion hv0
                | jbool b2 => exact Option.noConfusion hv0
                | jnum m2 => exact Option.noConfusion hv0
                | jstr t2 => exact Option.noConfusion hv0
                | jarr l2 => exact Option.noConfusion hv0
            | jnull => exact Bool.noConfusion hm0
            | jbool b2 => exact Bool.noConfusion hm0
            | jstr t2 => exact Bool.noConfusion hm0
            | jarr l2 => exact Bool.noConfusion hm0
            | jobj f2 => exact Bool.noConfusion hm0

theorem renderSigs_char (inst : String) (sigs : List JValue)
    (hwf : sigs.all wfSignal = true) :
    ∃ evts, renderSigs inst sigs = some evts ∧
      gaugeSamples evts =
        ((sigs.filter (fun s => statusSuccess s && sigMatches s)).map
          (specSample inst)) := by
  revert hwf
  induction sigs with
  | nil => exact fun _ => ⟨[], rfl, rfl⟩
  | cons s rest ih =>
    intro hwf
    rw [List.all_cons, Bool.and_eq_true] at hwf
    obtain ⟨hs, hrest⟩ := hwf
    obtain ⟨evr, her, hgr⟩ := ih hrest
    cases hst : (jGet s "status").bind (fun st => jGet st "value") with
    | none =>
      unfold wfSignal at hs
      simp only [hst] at hs
      exact Bool.noConfusion hs
    | some sv =>
      by_cases hsv : pyEqStr sv "SUCCESS" = true
      · have hsucc : statusSuccess s = true := by
          unfold statusSuccess
          simp only [hst]
          exact hsv
        obtain ⟨evs, hes, hgs⟩ := write_signal_char s inst hs hsucc
        refine ⟨evs ++ evr, ?_, ?_⟩
        · simp only [renderSigs, hst, hsv, Bool.not_true,
            Bool.false_eq_true, if_false, hes, her]
        · rw [gaugeSamples_append, hgs, hgr, List.filter_cons]
          by_cases hsm : sigMatches s
          · simp [hsm, hsucc]
          · simp [hsm, hsucc]
      · have hsvf : pyEqStr sv "SUCCESS" = false := by
          revert hsv
          cases pyEqStr sv "SUCCESS" <;> simp
        have hsucc : statusSuccess s = false := by
          unfold statusSuccess
          simp only [hst]
          exact hsvf
        refine ⟨evr, ?_, ?_⟩
        · simp only [renderSigs, hst, hsvf, Bool.not_false, if_true, her]
        · rw [hgr, List.filter_cons]
          simp [hsucc]

theorem isGaugeSample_label_frag (k : String) (tail : String)
    (hk : (k == "id" || k == "make" || k == "model" || k == "year") =
      true) : isGaugeSample (k ++ tail) = false := by
  have hd : k = "id" ∨ k = "make" ∨ k = "model" ∨ k = "year" := by
    simp only [Bool.or_eq_true, beq_iff_eq] at hk
    tauto
  rcases hd with rfl | rfl | rfl | rfl
  · exact isGaugeSample_false_of_head _ 'i' rfl (by decide) (by decide)
      (by decide) (by decide) (by decide)
  · exact isGaugeSample_false_of_head _ 'm' rfl (by decide) (by decide)
      (by decide) (by decide) (by decide)
  · exact isGaugeSample_false_of_head _ 'm' rfl (by decide) (by decide)
      (by decide) (by decide) (by decide)
  · exact isGaugeSample_false_of_head _ 'y' rfl (by decide) (by decide)
      (by decide) (by decide) (by decide)

theorem gaugeSamples_label_rest (l : List (String × JValue))
    (hk : ∀ q ∈ l, (q.1 == "id" || q.1 == "make" || q.1 == "model" ||
      q.1 == "year") = true) :
    gaugeSamples ((l.map (fun q =>
      [OutEvent.body ", ",
       OutEvent.body (q.1 ++ ("=\"" ++ (pyStr q.2 ++ "\"")))])).flatten) =
      [] := by
  induction l with
  | nil => rfl
  | cons q rest ih =>
    have hq := hk q (List.mem_cons_self q rest)
    rw [List.map_cons, List.flatten_cons, gaugeSamples_append]
    rw [ih (fun q' hq' => hk q' (List.mem_cons_of_mem q hq'))]
    have hsep : isGaugeSample ", " = false := by decide
    rw [gaugeSamples_cons_body, hsep, gaugeSamples_cons_body,
      isGaugeSample_label_frag q.1 _ hq]
    rfl

theorem renderVehicleInfo_samples (ds : Obj) (vf : List (String × JValue))
    (hveh : aget ds "vehicle" = some (JValue.jobj vf))
    (hkeys : vf.all (fun p => p.1 == "id" || p.1 == "make" ||
      p.1 == "model" || p.1 == "year") = true) :
    ∃ evts, renderVehicleInfo ds = some evts ∧ gaugeSamples evts = [] := by
  refine ⟨[OutEvent.body "# HELP vehicleinfo Car info\n",
           OutEvent.body "# TYPE vehicleinfo info\n",
           OutEvent.body "vehicleinfo\x7b"] ++
      vehicleLabelEvents vf ++
      [OutEvent.body "\x7d 1\n"],
    by simp only [renderVehicleInfo, hveh], ?_⟩
  have hHELP : isGaugeSample "# HELP vehicleinfo Car info\n" = false := by
    decide
  have hTYPE : isGaugeSample "# TYPE vehicleinfo info\n" = false := by
    decide
  have hOPEN : isGaugeSample "vehicleinfo\x7b" = false := by decide
  have hCLOSE : isGaugeSample "\x7d 1\n" = false := by decide
  rw [gaugeSamples_append, gaugeSamples_append]
  rw [gaugeSamples_cons_body, hHELP, gaugeSamples_cons_body, hTYPE,
    gaugeSamples_cons_body, hOPEN, gaugeSamples_cons_body, hCLOSE]
  have hmid : gaugeSamples (vehicleLabelEvents vf) = [] := by
    cases vf with
    | nil => rfl
    | cons p rest =>
      unfold vehicleLabelEvents
      rw [List.all_cons, Bool.and_eq_true] at hkeys
      obtain ⟨hp, hrest⟩ := hkeys
      rw [gaugeSamples_append, gaugeSamples_cons_body,
        isGaugeSample_label_frag p.1 _ hp,
        gaugeSamples_label_rest rest (fun q hq => by
          have := List.all_eq_true.mp hrest q hq
          simpa using this)]
      rfl
  rw [hmid]
  rfl

theorem renderDS_char (inst : String) (ds : Obj) (h : wfDS ds = true) :
    ∃ evts, renderDS inst ds = some evts ∧
      gaugeSamples evts =
        ((sigListOf ds).filter (fun s => statusSuccess s && sigMatches s)).map
          (specSample inst) := by
  unfold wfDS at h
  rw [Bool.and_eq_true] at h
  obtain ⟨hv, hs⟩ := h
  cases hveh : aget ds "vehicle" with
  | none =>
    simp only [hveh] at hv
    exact Bool.noConfusion hv
  | some vehv =>
    simp only [hveh] at hv
    cases vehv with
    | jobj vf =>
      cases hsig : aget ds "signals" with
      | none =>
        simp only [hsig] at hs
        exact Bool.noConfusion hs
      | some sigv =>
        simp only [hsig] at hs
        cases sigv with
        | jarr sigs =>
          obtain ⟨ev1, he1, hg1⟩ := renderVehicleInfo_samples ds vf hveh hv
          obtain ⟨ev2, he2, hg2⟩ := renderSigs_char inst sigs hs
          refine ⟨ev1 ++ ev2, ?_, ?_⟩
          · simp only [renderDS, he1, hsig, he2]
          · rw [gaugeSamples_append, hg1, hg2]
            simp only [sigListOf, hsig]
            rfl
        | jnull => exact Bool.noConfusion hs
        | jbool b => exact Bool.noConfusion hs
        | jnum m => exact Bool.noConfusion hs
        | jstr t => exact Bool.noConfusion hs
        | jobj f => exact Bool.noConfusion hs
    | jnull => exact Bool.noConfusion hv
    | jbool b => exact Bool.noConfusion hv
    | jnum m => exact Bool.noConfusion hv
    | jstr t => exact Bool.noConfusion hv
    | jarr l => exact Bool.noConfusion hv

theorem renderAll_char (store : Store) (h : wfStore store = true) :
    ∃ evts, renderAll store = some evts ∧
      gaugeSamples evts = specSamples store := by
  revert h
  induction store with
  | nil => exact fun _ => ⟨[], rfl, rfl⟩
  | cons e rest ih =>
    intro h
    unfold wfStore at h
    rw [List.all_cons, Bool.and_eq_true] at h
    obtain ⟨hd, ht⟩ := h
    obtain ⟨inst, ds⟩ := e
    obtain ⟨ev1, he1, hg1⟩ := renderDS_char inst ds hd
    obtain ⟨ev2, he2, hg2⟩ := ih ht
    refine ⟨ev1 ++ ev2, ?_, ?_⟩
    · simp only [renderAll, he1, he2]
    · rw [gaugeSamples_append, hg1, hg2]
      simp [specSamples]

/-- Claim C5: rendering completeness — for a well-formed store snapshot
(vehicle labels drawn from the declared `Vehicle` fields, signals shaped
as the data model declares), `do_GET` succeeds and the gauge sample lines
of the rendered document are, in order, exactly one line per signal with
`status.value == SUCCESS` and a code in the gauge table — with boolean
values coerced `true→1` / `false→0` and timestamp
`meta.oemUpdatedAt` floor-divided by 1000 — and no line for any other
signal. -/
theorem c5_rendering_completeness (store : Store)
    (h : wfStore store = true) :
    do_GET store ≠ none ∧
    gaugeSamples ((do_GET store).getD []) = specSamples store := by
  obtain ⟨evts, he, hg⟩ := renderAll_char store h
  constructor
  · simp [do_GET, he]
  · rw [show (do_GET store).getD [] =
      [OutEvent.status 200,
       OutEvent.header "Content-type" "text/plain; charset=utf-8",
       OutEvent.endHeaders] ++ evts from by simp [do_GET, he]]
    rw [gaugeSamples_append, hg]
    rfl

/-- Witness for C5 at a concrete snapshot: one vehicle with a matched
numeric signal (with unit), a matched boolean signal, an unmatched
SUCCESS signal, and an ERROR signal. -/
theorem c5_rendering_completeness_witness :
    do_GET w5Store ≠ none ∧
    gaugeSamples ((do_GET w5Store).getD []) = specSamples w5Store :=
  c5_rendering_completeness w5Store (by decide)
